import Mathlib

/-!
Verification of the mealie-discord-import repository's design spec against a
shallow embedding of its source.

Embedding conventions:
* Time is modelled in whole minutes as `Nat` (the code only ever adds
  `timedelta(minutes=k)` to `datetime.now()` and compares datetimes).
* The task registry `self.tasks : dict[str, RetryTask]` is modelled as an
  association list `List (String × RetryTask)` with Python-dict semantics:
  assignment overwrites the entry in place, lookup returns the first match.
* Fallible network calls are modelled by environment fields describing the
  remote responses; raised exceptions become explicit constructors.
-/

namespace MealieImport

/-- `RetryStatus` enum from src/utils/retry_queue.py lines 13-18. -/
inductive RetryStatus where
  | pending
  | retrying
  | success
  | failed
deriving DecidableEq

/-- `RetryTask` dataclass from src/utils/retry_queue.py lines 21-31.
`next_retry` is a timestamp in minutes; `max_attempts` defaults to 3 at
every construction site in the source. -/
structure RetryTask where
  task_id : String
  user_id : Nat
  url : String
  attempt : Nat
  max_attempts : Nat
  next_retry : Nat
  status : RetryStatus
  last_error : Option String
deriving DecidableEq

/-- `RetryTask.should_retry` (retry_queue.py lines 33-39):
`attempt < max_attempts and status != SUCCESS and now >= next_retry`. -/
def should_retry (t : RetryTask) (now : Nat) : Bool :=
  decide (t.attempt < t.max_attempts) &&
    decide (t.status ≠ RetryStatus.success) &&
    decide (t.next_retry ≤ now)

/-- `RetryTask.get_next_retry_delay` (retry_queue.py lines 41-46):
`delays = [5, 15, 30]; return delays[attempt] if attempt < len(delays) else 30`. -/
def get_next_retry_delay (t : RetryTask) : Nat :=
  if t.attempt < [5, 15, 30].length then [5, 15, 30].getD t.attempt 30 else 30

/-- The in-memory task registry `RetryQueue.tasks : dict[str, RetryTask]`. -/
abbrev TaskRegistry := List (String × RetryTask)

/-- Python `dict.get`: first entry with the given key. -/
def lookup_task : TaskRegistry → String → Option RetryTask
  | [], _ => none
  | (k, v) :: rest, id => if k = id then some v else lookup_task rest id

/-- Python dict assignment `self.tasks[task_id] = task`: overwrite in place
when the key is present (keeping its position), otherwise append. -/
def insert_task : TaskRegistry → String → RetryTask → TaskRegistry
  | [], id, t => [(id, t)]
  | (k, v) :: rest, id, t =>
      if k = id then (id, t) :: rest else (k, v) :: insert_task rest id t

/-- In-place mutation of the task object found under a key (the Python code
mutates the `RetryTask` obtained from `get_task`). -/
def modify_task : TaskRegistry → String → (RetryTask → RetryTask) → TaskRegistry
  | [], _, _ => []
  | (k, v) :: rest, id, f =>
      if k = id then (k, f v) :: rest else (k, v) :: modify_task rest id f

/-- `RetryQueue.add_task` (retry_queue.py lines 75-85): builds a fresh task
with dataclass defaults `attempt=0`, `max_attempts=3`, `status=PENDING`,
`last_error=None` and `next_retry = now + 5` minutes, then assigns it into
the dict keyed by `task_id`. -/
def add_task (q : TaskRegistry) (task_id : String) (user_id : Nat) (url : String)
    (now : Nat) : TaskRegistry :=
  insert_task q task_id
    { task_id := task_id
      user_id := user_id
      url := url
      attempt := 0
      max_attempts := 3
      next_retry := now + 5
      status := RetryStatus.pending
      last_error := none }

/-- Python `if error: task.last_error = error` — only a non-`None`, non-empty
string overwrites the previous error. -/
def apply_error (old : Option String) (error : Option String) : Option String :=
  match error with
  | none => old
  | some e => if e = "" then old else some e

/-- Per-task mutation of `RetryQueue.update_task_status` (retry_queue.py lines
134-148) once the task is found: sets `status`, increments `attempt` (BEFORE
any delay computation), records a truthy error, and on `status=PENDING`
re-arms `next_retry = now + get_next_retry_delay()` where the delay is read
off the already-incremented `attempt`. When the id is absent the registry
function below silently returns the registry unchanged (lines 130-132). -/
def apply_status_update (status : RetryStatus) (error : Option String) (now : Nat)
    (t : RetryTask) : RetryTask :=
  let t1 : RetryTask :=
    { t with
      status := status
      attempt := t.attempt + 1
      last_error := apply_error t.last_error error }
  if status = RetryStatus.pending then
    { t1 with next_retry := now + get_next_retry_delay t1 }
  else t1

/-- The registry-level effect of `RetryQueue.update_task_status`. -/
def update_task_status (q : TaskRegistry) (task_id : String) (status : RetryStatus)
    (error : Option String) (now : Nat) : TaskRegistry :=
  match lookup_task q task_id with
  | none => q
  | some _ => modify_task q task_id (apply_status_update status error now)

/-- Body of the scan in `RetryQueue._process_queue` (retry_queue.py lines
107-112) applied to one task: `if task.should_retry(): task.status = RETRYING`. -/
def scan_step (now : Nat) (t : RetryTask) : RetryTask :=
  if should_retry t now then { t with status := RetryStatus.retrying } else t

/-- One tick of the background loop `RetryQueue._process_queue` (retry_queue.py
lines 101-115): every stored task is examined and flagged via `scan_step`. -/
def process_queue_tick (q : TaskRegistry) (now : Nat) : TaskRegistry :=
  q.map (fun p => (p.1, scan_step now p.2))

/-- The keys of the registry, for duplicate-freedom statements. -/
def task_keys (q : TaskRegistry) : List String :=
  q.map Prod.fst

theorem lookup_insert_self (q : TaskRegistry) (id : String) (t : RetryTask) :
    lookup_task (insert_task q id t) id = some t := by
  induction q with
  | nil => simp [insert_task, lookup_task]
  | cons p rest ih =>
      obtain ⟨k, v⟩ := p
      by_cases hk : k = id
      · simp [insert_task, hk, lookup_task]
      · simp [insert_task, hk, lookup_task, ih]

theorem lookup_modify_self (q : TaskRegistry) (id : String) (f : RetryTask → RetryTask) :
    lookup_task (modify_task q id f) id = (lookup_task q id).map f := by
  induction q with
  | nil => simp [modify_task, lookup_task]
  | cons p rest ih =>
      obtain ⟨k, v⟩ := p
      by_cases hk : k = id
      · simp [modify_task, hk, lookup_task]
      · simp [modify_task, hk, lookup_task, ih]

theorem task_keys_cons (k : String) (v : RetryTask) (rest : TaskRegistry) :
    task_keys ((k, v) :: rest) = k :: task_keys rest := rfl

theorem insert_task_cons_hit (k : String) (v : RetryTask) (rest : TaskRegistry)
    (t : RetryTask) : insert_task ((k, v) :: rest) k t = (k, t) :: rest := by
  simp [insert_task]

theorem insert_task_cons_miss (k : String) (v : RetryTask) (rest : TaskRegistry)
    (id : String) (t : RetryTask) (hk : k ≠ id) :
    insert_task ((k, v) :: rest) id t = (k, v) :: insert_task rest id t := by
  simp [insert_task, hk]

theorem mem_task_keys_insert (q : TaskRegistry) (id : String) (t : RetryTask)
    (x : String) (hx : x ∈ task_keys (insert_task q id t)) :
    x ∈ task_keys q ∨ x = id := by
  induction q with
  | nil =>
      simp [insert_task, task_keys] at hx
      exact Or.inr hx
  | cons p rest ih =>
      obtain ⟨k, v⟩ := p
      by_cases hk : k = id
      · subst hk
        rw [insert_task_cons_hit, task_keys_cons] at hx
        rcases List.mem_cons.mp hx with h1 | h1
        · exact Or.inr h1
        · exact Or.inl (by rw [task_keys_cons]; exact List.mem_cons_of_mem _ h1)
      · rw [insert_task_cons_miss k v rest id t hk, task_keys_cons] at hx
        rcases List.mem_cons.mp hx with h1 | h1
        · exact Or.inl (by rw [task_keys_cons, h1]; exact List.mem_cons_self _ _)
        · rcases ih h1 with h2 | h2
          · exact Or.inl (by rw [task_keys_cons]; exact List.mem_cons_of_mem _ h2)
          · exact Or.inr h2

theorem nodup_keys_insert (q : TaskRegistry) (id : String) (t : RetryTask)
    (h : (task_keys q).Nodup) : (task_keys (insert_task q id t)).Nodup := by
  induction q with
  | nil => simp [insert_task, task_keys]
  | cons p rest ih =>
      obtain ⟨k, v⟩ := p
      rw [task_keys_cons] at h
      have hk1 : k ∉ task_keys rest := (List.nodup_cons.mp h).1
      have hk2 : (task_keys rest).Nodup := (List.nodup_cons.mp h).2
      by_cases hk : k = id
      · subst hk
        rw [insert_task_cons_hit, task_keys_cons]
        exact List.nodup_cons.mpr ⟨hk1, hk2⟩
      · rw [insert_task_cons_miss k v rest id t hk, task_keys_cons]
        refine List.nodup_cons.mpr ⟨?_, ih hk2⟩
        intro hmem
        rcases mem_task_keys_insert rest id t k hmem with hm | hm
        · exact hk1 hm
        · exact hk hm

theorem count_keys_insert (q : TaskRegistry) (id : String) (t : RetryTask)
    (h : (task_keys q).Nodup) :
    (task_keys (insert_task q id t)).count id = 1 := by
  induction q with
  | nil => simp [insert_task, task_keys]
  | cons p rest ih =>
      obtain ⟨k, v⟩ := p
      rw [task_keys_cons] at h
      have hk1 : k ∉ task_keys rest := (List.nodup_cons.mp h).1
      have hk2 : (task_keys rest).Nodup := (List.nodup_cons.mp h).2
      by_cases hk : k = id
      · subst hk
        rw [insert_task_cons_hit, task_keys_cons, List.count_cons_self]
        rw [List.count_eq_zero.mpr hk1]
      · rw [insert_task_cons_miss k v rest id t hk, task_keys_cons,
          List.count_cons_of_ne (Ne.symm hk)]
        exact ih hk2

theorem get_next_retry_delay_spec (t : RetryTask) :
    get_next_retry_delay t =
      if t.attempt = 0 then 5 else if t.attempt = 1 then 15 else 30 := by
  unfold get_next_retry_delay
  by_cases h0 : t.attempt = 0
  · rw [h0]; decide
  · by_cases h1 : t.attempt = 1
    · rw [h1]; decide
    · by_cases h2 : t.attempt = 2
      · rw [h2]; decide
      · have h4 : ¬ t.attempt < [5, 15, 30].length := by
          simp only [List.length_cons, List.length_nil]
          omega
        rw [if_neg h4, if_neg h0, if_neg h1]

theorem should_retry_iff (t : RetryTask) (now : Nat) :
    should_retry t now = true ↔
      t.attempt < t.max_attempts ∧ t.status ≠ RetryStatus.success ∧
        t.next_retry ≤ now := by
  simp [should_retry, and_assoc]

theorem scan_step_eq (t : RetryTask) (now : Nat) :
    scan_step now t =
      if t.attempt < t.max_attempts ∧ t.status ≠ RetryStatus.success ∧
          t.next_retry ≤ now then
        { t with status := RetryStatus.retrying }
      else t := by
  unfold scan_step
  by_cases hc : t.attempt < t.max_attempts ∧ t.status ≠ RetryStatus.success ∧
      t.next_retry ≤ now
  · rw [if_pos hc, if_pos ((should_retry_iff t now).mpr hc)]
  · rw [if_neg hc, if_neg (fun hb => hc ((should_retry_iff t now).mp hb))]

theorem lookup_process_tick (q : TaskRegistry) (now : Nat) (k : String) :
    lookup_task (process_queue_tick q now) k =
      (lookup_task q k).map (scan_step now) := by
  induction q with
  | nil => simp [process_queue_tick, lookup_task]
  | cons p rest ih =>
      obtain ⟨k0, v⟩ := p
      by_cases hk : k0 = k
      · simp [process_queue_tick, lookup_task, hk]
      · simpa [process_queue_tick, lookup_task, hk] using ih

theorem update_task_status_present (q : TaskRegistry) (id : String)
    (status : RetryStatus) (error : Option String) (now : Nat) (t : RetryTask)
    (h : lookup_task q id = some t) :
    update_task_status q id status error now =
      modify_task q id (apply_status_update status error now) := by
  unfold update_task_status
  rw [h]

theorem lookup_update_task_status (q : TaskRegistry) (id : String)
    (status : RetryStatus) (error : Option String) (now : Nat) (t : RetryTask)
    (h : lookup_task q id = some t) :
    lookup_task (update_task_status q id status error now) id =
      some (apply_status_update status error now t) := by
  rw [update_task_status_present q id status error now t h,
    lookup_modify_self, h, Option.map_some']

/-- Claim C1 (amended): calling `update_task_status` with `status=Pending` on a
present task increments `attempt` first and only then reads the backoff
schedule, so the delay is indexed by the POST-increment attempt number:
a task with pre-increment `attempt = 0` is re-armed with now + 15 minutes,
and every task with pre-increment `attempt ≥ 1` with now + 30 minutes.
In particular, a task with `attempt = 1` gets now + 30 minutes, not now + 15. -/
theorem update_status_pending_schedules (q : TaskRegistry) (id : String)
    (t : RetryTask) (error : Option String) (now : Nat)
    (h : lookup_task q id = some t) :
    ∃ u : RetryTask,
      lookup_task (update_task_status q id RetryStatus.pending error now) id =
        some u ∧
      u.status = RetryStatus.pending ∧
      u.attempt = t.attempt + 1 ∧
      u.next_retry = now + (if t.attempt = 0 then 15 else 30) ∧
      u.task_id = t.task_id ∧ u.user_id = t.user_id ∧ u.url = t.url ∧
      u.max_attempts = t.max_attempts ∧
      u.last_error = apply_error t.last_error error := by
  refine ⟨apply_status_update RetryStatus.pending error now t,
    lookup_update_task_status q id RetryStatus.pending error now t h,
    ?_, ?_, ?_, ?_, ?_, ?_, ?_, ?_⟩
  · simp [apply_status_update]
  · simp [apply_status_update]
  · simp only [apply_status_update, if_pos rfl]
    rw [get_next_retry_delay_spec]
    simp
  · simp [apply_status_update]
  · simp [apply_status_update]
  · simp [apply_status_update]
  · simp [apply_status_update]
  · simp [apply_status_update]

/-- Witness for C1 amended: a concrete task with `attempt = 1` present under
key t1 is re-armed at now + 30. -/
theorem update_status_pending_schedules_witness :
    ∃ u : RetryTask,
      lookup_task (update_task_status
        [("t1", { task_id := "t1", user_id := 1, url := "u", attempt := 1,
                  max_attempts := 3, next_retry := 0,
                  status := RetryStatus.retrying, last_error := none })]
        "t1" RetryStatus.pending none 100) "t1" = some u ∧
      u.status = RetryStatus.pending ∧
      u.attempt = 1 + 1 ∧
      u.next_retry = 100 + (if (1 : Nat) = 0 then 15 else 30) ∧
      u.task_id = "t1" ∧ u.user_id = 1 ∧ u.url = "u" ∧
      u.max_attempts = 3 ∧
      u.last_error = apply_error none none :=
  update_status_pending_schedules
    [("t1", { task_id := "t1", user_id := 1, url := "u", attempt := 1,
              max_attempts := 3, next_retry := 0,
              status := RetryStatus.retrying, last_error := none })]
    "t1"
    { task_id := "t1", user_id := 1, url := "u", attempt := 1,
      max_attempts := 3, next_retry := 0,
      status := RetryStatus.retrying, last_error := none }
    none 100 (by rfl)

/-- Counterexample for C1 as stated: the claim predicts that a task with
`attempt = 1` updated with `Pending` is re-armed at now + 15 minutes
(backoff indexed by the pre-increment attempt). The code increments
`attempt` to 2 before reading the schedule and re-arms at now + 30. -/
theorem update_status_pending_counterexample :
    lookup_task (update_task_status
      [("t1", { task_id := "t1", user_id := 1, url := "u", attempt := 1,
                max_attempts := 3, next_retry := 0,
                status := RetryStatus.retrying, last_error := none })]
      "t1" RetryStatus.pending none 100) "t1" =
      some { task_id := "t1", user_id := 1, url := "u", attempt := 2,
             max_attempts := 3, next_retry := 130,
             status := RetryStatus.pending, last_error := none } ∧
    (130 : Nat) ≠ 100 + 15 := by
  exact ⟨rfl, by omega⟩

/-- Claim C4 (amended): a task with `status = Success`, or with
`status = Failed` and `attempt ≥ max_attempts`, is never eligible in a
scheduler scan (`should_retry` is false) and the scan leaves it unchanged.
The `UpdateStatus` half of the original claim is false: `update_task_status`
has no terminal-state guard, so a `Pending` update re-arms even a `Success`
task (see the counterexample). -/
theorem terminal_task_not_scanned (t : RetryTask) (now : Nat)
    (h : t.status = RetryStatus.success ∨
      (t.status = RetryStatus.failed ∧ t.max_attempts ≤ t.attempt)) :
    should_retry t now = false ∧ scan_step now t = t := by
  have hs : should_retry t now = false := by
    rcases h with h | ⟨h1, h2⟩
    · simp [should_retry, h]
    · simp [should_retry, show ¬ t.attempt < t.max_attempts from by omega]
  refine ⟨hs, ?_⟩
  unfold scan_step
  rw [hs]
  simp

/-- Witness for C4 amended at a concrete exhausted failed task. -/
theorem terminal_task_not_scanned_witness :
    should_retry
      { task_id := "t1", user_id := 1, url := "u", attempt := 3,
        max_attempts := 3, next_retry := 0,
        status := RetryStatus.failed, last_error := none } 1000 = false ∧
    scan_step 1000
      { task_id := "t1", user_id := 1, url := "u", attempt := 3,
        max_attempts := 3, next_retry := 0,
        status := RetryStatus.failed, last_error := none } =
      { task_id := "t1", user_id := 1, url := "u", attempt := 3,
        max_attempts := 3, next_retry := 0,
        status := RetryStatus.failed, last_error := none } :=
  terminal_task_not_scanned
    { task_id := "t1", user_id := 1, url := "u", attempt := 3,
      max_attempts := 3, next_retry := 0,
      status := RetryStatus.failed, last_error := none } 1000
    (Or.inr ⟨rfl, by decide⟩)

/-- Counterexample for C4 as stated: a task with `status = Success` and
`attempt = 0` is re-armed by `update_task_status (..., Pending)` — it gets a
fresh `next_retry_at` of now + 15 and becomes eligible again at that time,
so `UpdateStatus` does NOT treat it as terminal. -/
theorem success_task_rearmed_counterexample :
    lookup_task (update_task_status
      [("t1", { task_id := "t1", user_id := 1, url := "u", attempt := 0,
                max_attempts := 3, next_retry := 0,
                status := RetryStatus.success, last_error := none })]
      "t1" RetryStatus.pending none 100) "t1" =
      some { task_id := "t1", user_id := 1, url := "u", attempt := 1,
             max_attempts := 3, next_retry := 115,
             status := RetryStatus.pending, last_error := none } ∧
    should_retry
      { task_id := "t1", user_id := 1, url := "u", attempt := 1,
        max_attempts := 3, next_retry := 115,
        status := RetryStatus.pending, last_error := none } 115 = true := by
  exact ⟨rfl, rfl⟩

/-- Claim C5 (amended): a scheduler tick transitions to `Retrying` exactly the
tasks with `attempt < max_attempts`, `status ≠ Success` and
`next_retry_at ≤ now` — NOT only `Pending` tasks: a non-exhausted `Failed`
task is also flagged (see the counterexample), while every task failing the
condition is left completely unchanged. -/
theorem scan_tick_characterization (q : TaskRegistry) (now : Nat) (k : String)
    (t : RetryTask) (h : lookup_task q k = some t) :
    lookup_task (process_queue_tick q now) k =
      some (if t.attempt < t.max_attempts ∧ t.status ≠ RetryStatus.success ∧
              t.next_retry ≤ now
            then { t with status := RetryStatus.retrying } else t) := by
  rw [lookup_process_tick, h, Option.map_some', scan_step_eq]

/-- Witness for C5 amended: a concrete pending due task is flagged Retrying. -/
theorem scan_tick_characterization_witness :
    lookup_task (process_queue_tick
      [("t1", { task_id := "t1", user_id := 1, url := "u", attempt := 0,
                max_attempts := 3, next_retry := 5,
                status := RetryStatus.pending, last_error := none })] 9) "t1" =
      some (if (0 : Nat) < 3 ∧ RetryStatus.pending ≠ RetryStatus.success ∧
              (5 : Nat) ≤ 9
            then { task_id := "t1", user_id := 1, url := "u", attempt := 0,
                   max_attempts := 3, next_retry := 5,
                   status := RetryStatus.retrying, last_error := none }
            else { task_id := "t1", user_id := 1, url := "u", attempt := 0,
                   max_attempts := 3, next_retry := 5,
                   status := RetryStatus.pending, last_error := none }) :=
  scan_tick_characterization
    [("t1", { task_id := "t1", user_id := 1, url := "u", attempt := 0,
              max_attempts := 3, next_retry := 5,
              status := RetryStatus.pending, last_error := none })]
    9 "t1"
    { task_id := "t1", user_id := 1, url := "u", attempt := 0,
      max_attempts := 3, next_retry := 5,
      status := RetryStatus.pending, last_error := none } (by rfl)

/-- Counterexample for C5 as stated: the claim says tasks in `Failed` status
are left unchanged by the scan. A `Failed` task with attempts remaining
(`attempt = 1 < 3`) and a due `next_retry` is transitioned to `Retrying`
by the tick, because `should_retry` only excludes `Success`. -/
theorem failed_task_resurrected_counterexample :
    process_queue_tick
      [("t1", { task_id := "t1", user_id := 1, url := "u", attempt := 1,
                max_attempts := 3, next_retry := 0,
                status := RetryStatus.failed, last_error := none })] 5 =
      [("t1", { task_id := "t1", user_id := 1, url := "u", attempt := 1,
                max_attempts := 3, next_retry := 0,
                status := RetryStatus.retrying, last_error := none })] ∧
    RetryStatus.failed ≠ RetryStatus.retrying := by
  exact ⟨rfl, by decide⟩

/-- Claim C8: `add_task` is idempotent on `task_id`: each call stores a task
with `attempt = 0`, `status = Pending`, `next_retry = now + 5` under the
given key, and a second call with the same `task_id` leaves exactly one
entry carrying the second call's fields. -/
theorem add_task_idempotent (q : TaskRegistry) (id : String) (u1 u2 : Nat)
    (url1 url2 : String) (n1 n2 : Nat) (h : (task_keys q).Nodup) :
    lookup_task (add_task (add_task q id u1 url1 n1) id u2 url2 n2) id =
      some { task_id := id, user_id := u2, url := url2, attempt := 0,
             max_attempts := 3, next_retry := n2 + 5,
             status := RetryStatus.pending, last_error := none } ∧
    (task_keys (add_task (add_task q id u1 url1 n1) id u2 url2 n2)).count id
      = 1 := by
  constructor
  · exact lookup_insert_self _ _ _
  · exact count_keys_insert _ id _ (nodup_keys_insert q id _ h)

/-- Witness for C8 on the empty registry with two different field sets. -/
theorem add_task_idempotent_witness :
    lookup_task (add_task (add_task [] "t1" 7 "urlA" 0) "t1" 8 "urlB" 10) "t1" =
      some { task_id := "t1", user_id := 8, url := "urlB", attempt := 0,
             max_attempts := 3, next_retry := 15,
             status := RetryStatus.pending, last_error := none } ∧
    (task_keys (add_task (add_task [] "t1" 7 "urlA" 0) "t1" 8 "urlB" 10)).count
      "t1" = 1 :=
  add_task_idempotent [] "t1" 7 8 "urlA" "urlB" 0 10 (by simp [task_keys])

/-- Claim C10: `update_task_status` on a `task_id` absent from the registry is
a silent no-op: it returns without any exception path and the registry (and
hence every stored task) is completely unchanged. -/
theorem update_task_status_absent_noop (q : TaskRegistry) (id : String)
    (status : RetryStatus) (error : Option String) (now : Nat)
    (h : lookup_task q id = none) :
    update_task_status q id status error now = q := by
  unfold update_task_status
  rw [h]

/-- Witness for C10: a registry holding one task under another key is
untouched by an update addressed to a missing key. -/
theorem update_task_status_absent_noop_witness :
    update_task_status
      [("t1", { task_id := "t1", user_id := 1, url := "u", attempt := 0,
                max_attempts := 3, next_retry := 5,
                status := RetryStatus.pending, last_error := none })]
      "t2" RetryStatus.failed (some "boom") 99 =
      [("t1", { task_id := "t1", user_id := 1, url := "u", attempt := 0,
                max_attempts := 3, next_retry := 5,
                status := RetryStatus.pending, last_error := none })] :=
  update_task_status_absent_noop _ "t2" RetryStatus.failed (some "boom") 99
    (by rfl)

/-! ## URL validation (src/bot/discord_bot.py `_is_valid_url`, lines 531-537)

`_is_valid_url` calls `urllib.parse.urlparse` and returns
`all([result.scheme, result.netloc])`, i.e. both components non-empty.
We embed the scheme/netloc part of CPython `urlsplit`: the text before the
first colon is a scheme when it is non-empty, starts with an ASCII letter and
consists of letters, digits, `+`, `-`, `.` (it is lower-cased); the netloc is
present only when the remainder starts with `//` and extends to the next
`/`, `?` or `#`. (`urlparse` can raise only for unbalanced brackets in the
netloc; the source wraps the call in a bare `except` returning False — no
input in this development contains brackets.) -/

def scheme_char (c : Char) : Bool :=
  c.isAlpha || c.isDigit || c == '+' || c == '-' || c == '.'

/-- Split a character list at its first colon, when one exists. -/
def split_on_colon : List Char → Option (List Char × List Char)
  | [] => none
  | c :: rest =>
      if c = ':' then some ([], rest)
      else
        match split_on_colon rest with
        | some (a, b) => some (c :: a, b)
        | none => none

/-- The `scheme, rest` decomposition performed by `urlsplit`. -/
def urlsplit_scheme_rest (s : String) : String × String :=
  match split_on_colon s.data with
  | some ([], _) => ("", s)
  | some (c :: cs, post) =>
      if c.isAlpha && (c :: cs).all scheme_char then
        (String.mk ((c :: cs).map Char.toLower), String.mk post)
      else ("", s)
  | none => ("", s)

/-- The netloc extracted by `urlsplit` from the post-scheme remainder. -/
def urlsplit_netloc (rest : String) : String :=
  match rest.data with
  | '/' :: '/' :: r =>
      String.mk (r.takeWhile (fun c => !(c == '/' || c == '?' || c == '#')))
  | _ => ""

/-- `MealieBot._is_valid_url` (discord_bot.py lines 531-537):
`all([result.scheme, result.netloc])` — both strings truthy (non-empty). -/
def _is_valid_url (url : String) : Bool :=
  let sr := urlsplit_scheme_rest url
  (sr.1 != "") && (urlsplit_netloc sr.2 != "")

/-! ## Mealie client (src/mealie/client.py) -/

/-- What the primary backend's create-from-URL HTTP call did: either an HTTP
response with a status and body text, or a transport failure
(`aiohttp.ClientError`). -/
inductive HttpOutcome where
  | response (status : Nat) (body : String)
  | transport_error
deriving DecidableEq

/-- What `MealieClient.create_recipe_from_url` produces for the caller:
a returned dict carrying the slug, a raised `ValueError`, or a re-raised
`aiohttp.ClientError` (client.py lines 132-134 re-raise transport errors). -/
inductive CreateFromUrlResult where
  | created (slug : String)
  | value_error (msg : String)
  | client_error
deriving DecidableEq

/-- Python `text.strip(chars)` for a single quote character: remove all leading
and trailing double quotes. -/
def strip_quotes (s : String) : String :=
  String.mk
    (((s.data.dropWhile (fun c => c == '"')).reverse.dropWhile
        (fun c => c == '"')).reverse)

/-- Python `s.startswith(pre)`. -/
def py_startswith (s pre : String) : Bool :=
  pre.data.isPrefixOf s.data

/-- Python `s.endswith(suf)`. -/
def py_endswith (s suf : String) : Bool :=
  suf.data.isSuffixOf s.data

/-- Python `s.strip()` with no argument: remove leading and trailing
whitespace (ASCII whitespace; all inputs of interest are ASCII-delimited). -/
def py_strip (s : String) : String :=
  String.mk
    (((s.data.dropWhile Char.isWhitespace).reverse.dropWhile
        Char.isWhitespace).reverse)

/-- `MealieClient.create_recipe_from_url` (client.py lines 91-134) as a
function of the backend's HTTP outcome. Status 200/201 with a quoted body is
a created slug (the nested tag-assignment call swallows its own failures and
does not affect the result, lines 102-107); a body starting with
`"no-recipe`, an unexpected body, status 400, and any other status each
raise `ValueError`; a transport error is logged and re-raised. -/
def create_recipe_from_url (h : HttpOutcome) : CreateFromUrlResult :=
  match h with
  | .transport_error => .client_error
  | .response status body =>
      if status = 201 ∨ status = 200 then
        if py_startswith body "\"" && py_endswith body "\"" then
          .created (strip_quotes body)
        else if py_startswith body "\"no-recipe" then
          .value_error "Could not extract recipe from URL"
        else
          .value_error "Unexpected response format"
      else if status = 400 then
        .value_error "Invalid recipe URL or format"
      else
        .value_error "Failed to create recipe"

/-- The structured fields `validate_recipe_complete` reads from the fetched
recipe: `name`, `recipeIngredient`, `recipeInstructions`. -/
structure RecipeFields where
  name : String
  recipeIngredient : List String
  recipeInstructions : List String
deriving DecidableEq

/-- `MealieClient.validate_recipe_complete` (client.py lines 136-172) as a
function of what `get_recipe` returned (`none` models the exception path,
caught at lines 170-172). Checks, in order: stripped name longer than 3
characters, at least one ingredient, at least one instruction. -/
def validate_recipe_complete (fetched : Option RecipeFields) : Bool × String :=
  match fetched with
  | none => (false, "Error validating recipe")
  | some r =>
      let has_ingredients := decide (0 < r.recipeIngredient.length)
      let has_instructions := decide (0 < r.recipeInstructions.length)
      let has_name := decide (3 < (py_strip r.name).length)
      if !has_name then (false, "Recipe has no valid name")
      else if !has_ingredients then (false, "Recipe has no ingredients")
      else if !has_instructions then (false, "Recipe has no instructions")
      else (true, "Recipe is complete")

/-- The JSON object parsed out of the AI response. -/
structure AiRecipe where
  name : String
  recipeIngredient : List String
  recipeInstructions : List String
deriving DecidableEq

/-- Environment describing every remote response one run of the slash-command
pipeline can observe. -/
structure PipelineEnv where
  primary_response : HttpOutcome
  fetched : Option RecipeFields
  openai_key : Bool
  page_content : Option String
  ai_response : Option AiRecipe
  ai_create_slug : Option String
deriving DecidableEq

/-- `MealieClient.parse_recipe_with_ai` (client.py lines 448-552): returns
`None` when no OpenAI key is configured, when the page fetch fails, when the
model call or JSON parse fails, or when the parsed data misses a truthy
`name` or a non-empty `recipeIngredient`; otherwise the parsed recipe. -/
def parse_recipe_with_ai (e : PipelineEnv) : Option AiRecipe :=
  if !e.openai_key then none
  else
    match e.page_content with
    | none => none
    | some _ =>
        match e.ai_response with
        | none => none
        | some r =>
            if r.name == "" || r.recipeIngredient == [] then none else some r

/-- Terminal user-visible outcomes of `_handle_save_recipe_slash`, one
constructor per final embed (discord_bot.py lines 183-406). -/
inductive ImportOutcome where
  | failed_invalid_url
  | created_primary (slug : String)
  | created_ai (slug : String)
  | ai_create_failed_incomplete
  | no_ai_incomplete (reason : String)
  | ai_create_failed_no_recipe
  | no_ai_no_recipe
  | ai_create_failed_error
  | no_ai_error
  | processing_error
deriving DecidableEq

/-- The result of one pipeline run together with whether
`parse_recipe_with_ai` was ever called and whether the primary backend was
ever contacted. -/
structure PipelineTrace where
  outcome : ImportOutcome
  ai_invoked : Bool
  backend_called : Bool
deriving DecidableEq

/-- The AI-fallback tail shared by the three call sites in
`_handle_save_recipe_slash` (discord_bot.py lines 236-284, 295-343, 355-397):
parse with AI, then persist via `create_recipe_from_ai_data`; each call site
has its own failure embeds. -/
def ai_fallback_outcome (e : PipelineEnv) (on_create_fail on_no_ai : ImportOutcome) :
    ImportOutcome :=
  match parse_recipe_with_ai e with
  | some _ =>
      match e.ai_create_slug with
      | some s => ImportOutcome.created_ai s
      | none => on_create_fail
  | none => on_no_ai

/-- `MealieBot._handle_save_recipe_slash` after a successful defer
(discord_bot.py lines 183-406). `ValueError` from the primary call (lines
345-397) flows into AI fallback; any other exception — in particular the
re-raised `aiohttp.ClientError` — is caught by the generic handler at lines
399-406 and ends the pipeline with a processing-error embed. The
`status == created and slug` truthiness test at line 202 sends an empty slug
into the no-recipe fallback branch (lines 285-343). -/
def _handle_save_recipe_slash (e : PipelineEnv) (url : String) : PipelineTrace :=
  if !(_is_valid_url url) then
    { outcome := .failed_invalid_url, ai_invoked := false, backend_called := false }
  else
    match create_recipe_from_url e.primary_response with
    | .client_error =>
        { outcome := .processing_error, ai_invoked := false, backend_called := true }
    | .value_error _ =>
        { outcome := ai_fallback_outcome e .ai_create_failed_error .no_ai_error,
          ai_invoked := true, backend_called := true }
    | .created slug =>
        if slug != "" then
          match validate_recipe_complete e.fetched with
          | (true, _) =>
              { outcome := .created_primary slug, ai_invoked := false,
                backend_called := true }
          | (false, reason) =>
              { outcome := ai_fallback_outcome e .ai_create_failed_incomplete
                  (.no_ai_incomplete reason),
                ai_invoked := true, backend_called := true }
        else
          { outcome := ai_fallback_outcome e .ai_create_failed_no_recipe
              .no_ai_no_recipe,
            ai_invoked := true, backend_called := true }

/-- Claim C2 (amended): a network-transport error from the primary backend's
create-from-URL call is re-raised by the client and caught only by the
generic exception handler, so the pipeline ABORTS with a processing-error
outcome and the AI fallback is never invoked — regardless of whether the AI
stage is configured and would have succeeded. -/
theorem transport_error_aborts (e : PipelineEnv) (url : String)
    (hu : _is_valid_url url = true)
    (ht : e.primary_response = HttpOutcome.transport_error) :
    _handle_save_recipe_slash e url =
      { outcome := ImportOutcome.processing_error, ai_invoked := false,
        backend_called := true } := by
  unfold _handle_save_recipe_slash
  rw [hu, ht]
  rfl

/-- Witness for C2 amended: a concrete transport failure with a fully
configured and succeeding AI stage still ends in a processing error. -/
theorem transport_error_aborts_witness :
    _handle_save_recipe_slash
      { primary_response := HttpOutcome.transport_error, fetched := none,
        openai_key := true, page_content := some "page",
        ai_response := some
          { name := "Chicken Soup", recipeIngredient := ["chicken"],
            recipeInstructions := ["cook"] },
        ai_create_slug := some "chicken-soup" }
      "https://example.com/r" =
      { outcome := ImportOutcome.processing_error, ai_invoked := false,
        backend_called := true } :=
  transport_error_aborts
    { primary_response := HttpOutcome.transport_error, fetched := none,
      openai_key := true, page_content := some "page",
      ai_response := some
        { name := "Chicken Soup", recipeIngredient := ["chicken"],
          recipeInstructions := ["cook"] },
      ai_create_slug := some "chicken-soup" }
    "https://example.com/r" (by rfl) rfl

/-- Counterexample for C2 as stated: with a valid URL, a transport error on
the primary call, and an AI stage that would parse and persist successfully,
the claim predicts outcome Created with method ai; the code instead never
invokes AI and aborts with the generic processing-error embed. -/
theorem transport_error_counterexample :
    (_handle_save_recipe_slash
      { primary_response := HttpOutcome.transport_error, fetched := none,
        openai_key := true, page_content := some "page",
        ai_response := some
          { name := "Chicken Soup", recipeIngredient := ["chicken"],
            recipeInstructions := ["cook"] },
        ai_create_slug := some "chicken-soup" }
      "https://example.com/r").ai_invoked = false ∧
    (_handle_save_recipe_slash
      { primary_response := HttpOutcome.transport_error, fetched := none,
        openai_key := true, page_content := some "page",
        ai_response := some
          { name := "Chicken Soup", recipeIngredient := ["chicken"],
            recipeInstructions := ["cook"] },
        ai_create_slug := some "chicken-soup" }
      "https://example.com/r").outcome ≠
      ImportOutcome.created_ai "chicken-soup" := by
  exact ⟨rfl, by decide⟩

/-- Claim C3 (amended): an HTTP 400 client error from the primary backend
raises `ValueError`, which `_handle_save_recipe_slash` catches exactly like
the extraction-empty errors: the pipeline DOES proceed to the AI fallback,
and the final outcome is whatever the AI stage produces (Created when AI
parses and persists; a failure embed only when the AI stage fails). -/
theorem http_400_goes_to_ai (e : PipelineEnv) (url : String) (body : String)
    (hu : _is_valid_url url = true)
    (hr : e.primary_response = HttpOutcome.response 400 body) :
    _handle_save_recipe_slash e url =
      { outcome := ai_fallback_outcome e ImportOutcome.ai_create_failed_error
          ImportOutcome.no_ai_error,
        ai_invoked := true, backend_called := true } := by
  unfold _handle_save_recipe_slash
  rw [hu, hr]
  rfl

/-- Witness for C3 amended: a concrete 400 response with a succeeding AI
stage ends in Created via AI — the fallback ran. -/
theorem http_400_goes_to_ai_witness :
    _handle_save_recipe_slash
      { primary_response := HttpOutcome.response 400 "Invalid url", fetched := none,
        openai_key := true, page_content := some "page",
        ai_response := some
          { name := "Chicken Soup", recipeIngredient := ["chicken"],
            recipeInstructions := ["cook"] },
        ai_create_slug := some "chicken-soup" }
      "https://example.com/r" =
      { outcome := ai_fallback_outcome
          { primary_response := HttpOutcome.response 400 "Invalid url", fetched := none,
            openai_key := true, page_content := some "page",
            ai_response := some
              { name := "Chicken Soup", recipeIngredient := ["chicken"],
                recipeInstructions := ["cook"] },
            ai_create_slug := some "chicken-soup" }
          ImportOutcome.ai_create_failed_error ImportOutcome.no_ai_error,
        ai_invoked := true, backend_called := true } :=
  http_400_goes_to_ai
    { primary_response := HttpOutcome.response 400 "Invalid url", fetched := none,
      openai_key := true, page_content := some "page",
      ai_response := some
        { name := "Chicken Soup", recipeIngredient := ["chicken"],
          recipeInstructions := ["cook"] },
      ai_create_slug := some "chicken-soup" }
    "https://example.com/r" "Invalid url" (by rfl) rfl

/-- Counterexample for C3 as stated: on a concrete HTTP 400 response the AI
fallback IS invoked, and with a succeeding AI stage the request even ends
in Created rather than Failed. -/
theorem http_400_counterexample :
    (_handle_save_recipe_slash
      { primary_response := HttpOutcome.response 400 "Invalid url", fetched := none,
        openai_key := true, page_content := some "page",
        ai_response := some
          { name := "Chicken Soup", recipeIngredient := ["chicken"],
            recipeInstructions := ["cook"] },
        ai_create_slug := some "chicken-soup" }
      "https://example.com/r").ai_invoked = true ∧
    (_handle_save_recipe_slash
      { primary_response := HttpOutcome.response 400 "Invalid url", fetched := none,
        openai_key := true, page_content := some "page",
        ai_response := some
          { name := "Chicken Soup", recipeIngredient := ["chicken"],
            recipeInstructions := ["cook"] },
        ai_create_slug := some "chicken-soup" }
      "https://example.com/r").outcome = ImportOutcome.created_ai "chicken-soup" := by
  exact ⟨rfl, rfl⟩

/-- Claim C6 (amended): URL validation is the first pipeline step, decided
purely from the string (the theorem holds for EVERY environment), and a
rejected string yields the invalid-url failure with no backend call and no
AI call. But the accepted set is `urlparse` producing a non-empty scheme and
a non-empty netloc for ANY scheme — not only http/https (see the
counterexample with an ftp URL). -/
theorem invalid_url_rejected_immediately (e : PipelineEnv) (url : String)
    (h : _is_valid_url url = false) :
    _handle_save_recipe_slash e url =
      { outcome := ImportOutcome.failed_invalid_url, ai_invoked := false,
        backend_called := false } := by
  unfold _handle_save_recipe_slash
  rw [h]
  rfl

/-- Witness for C6 amended at the spec's own example string. -/
theorem invalid_url_rejected_immediately_witness :
    _handle_save_recipe_slash
      { primary_response := HttpOutcome.transport_error, fetched := none,
        openai_key := false, page_content := none, ai_response := none,
        ai_create_slug := none }
      "not-a-url" =
      { outcome := ImportOutcome.failed_invalid_url, ai_invoked := false,
        backend_called := false } :=
  invalid_url_rejected_immediately
    { primary_response := HttpOutcome.transport_error, fetched := none,
      openai_key := false, page_content := none, ai_response := none,
      ai_create_slug := none }
    "not-a-url" (by rfl)

/-- Counterexample for C6 as stated: `ftp://example.com` is not an absolute
URL with scheme http or https, yet `_is_valid_url` accepts it (any scheme
passes) and the pipeline proceeds to call the backend instead of returning
the invalid-url failure. -/
theorem ftp_url_accepted_counterexample :
    _is_valid_url "ftp://example.com" = true ∧
    (urlsplit_scheme_rest "ftp://example.com").1 = "ftp" ∧
    (_handle_save_recipe_slash
      { primary_response := HttpOutcome.transport_error, fetched := none,
        openai_key := false, page_content := none, ai_response := none,
        ai_create_slug := none }
      "ftp://example.com").backend_called = true ∧
    (_handle_save_recipe_slash
      { primary_response := HttpOutcome.transport_error, fetched := none,
        openai_key := false, page_content := none, ai_response := none,
        ai_create_slug := none }
      "ftp://example.com").outcome ≠ ImportOutcome.failed_invalid_url := by
  exact ⟨rfl, rfl, rfl, by decide⟩

/-- Claim C7: completeness validation checks the fetched fields in the fixed
precedence (a) stripped name longer than 3 characters, (b) at least one
ingredient, (c) at least one instruction, reporting the first failing
condition's reason; and when all three pass on a recipe created by the
primary backend, the pipeline ends Created via the primary method with the
AI stage never invoked. -/
theorem validation_precedence_and_primary_success (e : PipelineEnv)
    (url : String) (slug : String) (r : RecipeFields)
    (hu : _is_valid_url url = true)
    (hc : create_recipe_from_url e.primary_response =
      CreateFromUrlResult.created slug)
    (hs : slug ≠ "")
    (hf : e.fetched = some r) :
    (¬ 3 < (py_strip r.name).length →
      validate_recipe_complete e.fetched = (false, "Recipe has no valid name")) ∧
    (3 < (py_strip r.name).length → r.recipeIngredient = [] →
      validate_recipe_complete e.fetched = (false, "Recipe has no ingredients")) ∧
    (3 < (py_strip r.name).length → r.recipeIngredient ≠ [] →
      r.recipeInstructions = [] →
      validate_recipe_complete e.fetched = (false, "Recipe has no instructions")) ∧
    (3 < (py_strip r.name).length → r.recipeIngredient ≠ [] →
      r.recipeInstructions ≠ [] →
      validate_recipe_complete e.fetched = (true, "Recipe is complete") ∧
      _handle_save_recipe_slash e url =
        { outcome := ImportOutcome.created_primary slug, ai_invoked := false,
          backend_called := true }) := by
  refine ⟨?_, ?_, ?_, ?_⟩
  · intro hn
    simp [validate_recipe_complete, hf, decide_eq_false hn]
  · intro hn hi
    simp [validate_recipe_complete, hf, decide_eq_true hn, hi]
  · intro hn hi hins
    simp [validate_recipe_complete, hf, decide_eq_true hn, hins,
      decide_eq_true (List.length_pos.mpr hi)]
  · intro hn hi hins
    have hv : validate_recipe_complete e.fetched = (true, "Recipe is complete") := by
      simp [validate_recipe_complete, hf, decide_eq_true hn,
        decide_eq_true (List.length_pos.mpr hi),
        decide_eq_true (List.length_pos.mpr hins)]
    refine ⟨hv, ?_⟩
    have hb : (slug != "") = true := by simpa using hs
    unfold _handle_save_recipe_slash
    rw [hu, hc]
    dsimp only
    rw [hb, hv]
    rfl

/-- Witness for C7: a concrete 200 response with quoted slug and a complete
fetched recipe ends Created via primary with no AI call. -/
theorem validation_precedence_and_primary_success_witness :
    ((3 : Nat) < (py_strip "Good Soup").length ∧ (["x"] : List String) ≠ [] ∧
      (["y"] : List String) ≠ []) ∧
    (validate_recipe_complete (some
        { name := "Good Soup", recipeIngredient := ["x"],
          recipeInstructions := ["y"] }) = (true, "Recipe is complete") ∧
      _handle_save_recipe_slash
        { primary_response := HttpOutcome.response 200 "\"soup\"",
          fetched := some
            { name := "Good Soup", recipeIngredient := ["x"],
              recipeInstructions := ["y"] },
          openai_key := true, page_content := some "page",
          ai_response := some
            { name := "Chicken Soup", recipeIngredient := ["chicken"],
              recipeInstructions := ["cook"] },
          ai_create_slug := some "chicken-soup" }
        "https://example.com/r" =
        { outcome := ImportOutcome.created_primary "soup", ai_invoked := false,
          backend_called := true }) :=
  ⟨⟨by decide, by decide, by decide⟩,
    (validation_precedence_and_primary_success
      { primary_response := HttpOutcome.response 200 "\"soup\"",
        fetched := some
          { name := "Good Soup", recipeIngredient := ["x"],
            recipeInstructions := ["y"] },
        openai_key := true, page_content := some "page",
        ai_response := some
          { name := "Chicken Soup", recipeIngredient := ["chicken"],
            recipeInstructions := ["cook"] },
        ai_create_slug := some "chicken-soup" }
      "https://example.com/r" "soup"
      { name := "Good Soup", recipeIngredient := ["x"],
        recipeInstructions := ["y"] }
      (by rfl) (by rfl) (by decide) rfl).2.2.2
      (by decide) (by decide) (by decide)⟩

/-! ## Tag slug generation (src/mealie/client.py `_generate_slug`, lines 432-446)

The Python code lower-cases the name, replaces the nine lowercase Polish
diacritic letters by their base letters, replaces every character outside
`[a-z0-9]` by a hyphen, collapses hyphen runs, and strips edge hyphens.
`str.lower()` is modelled character-wise on ASCII `A-Z` and the nine
uppercase Polish letters; for any other character both it and its Python
lowercase lie outside `[a-z0-9]` and outside the Polish fold set, so both
are replaced by a hyphen and the slug is unaffected (exotic one-off case
mappings such as the Kelvin sign aside, which no tag name here contains). -/

def py_lower_char (c : Char) : Char :=
  if 'A' ≤ c ∧ c ≤ 'Z' then c.toLower
  else if c = 'Ą' then 'ą' else if c = 'Ć' then 'ć' else if c = 'Ę' then 'ę'
  else if c = 'Ł' then 'ł' else if c = 'Ń' then 'ń' else if c = 'Ó' then 'ó'
  else if c = 'Ś' then 'ś' else if c = 'Ź' then 'ź' else if c = 'Ż' then 'ż'
  else c

/-- The chained `str.replace` calls at client.py lines 437-439, per character. -/
def fold_polish (c : Char) : Char :=
  if c = 'ą' then 'a' else if c = 'ć' then 'c' else if c = 'ę' then 'e'
  else if c = 'ł' then 'l' else if c = 'ń' then 'n' else if c = 'ó' then 'o'
  else if c = 'ś' then 's' else if c = 'ź' then 'z' else if c = 'ż' then 'z'
  else c

/-- Membership in the regex class `[a-z0-9]`. -/
def is_slug_alnum (c : Char) : Bool :=
  ('a' ≤ c && c ≤ 'z') || ('0' ≤ c && c ≤ '9')

/-- `re.sub(r'[^a-z0-9]', '-', name)`, per character. -/
def hyphenate (c : Char) : Char :=
  if is_slug_alnum c then c else '-'

/-- `re.sub(r'-+', '-', name)`: collapse every hyphen run to one hyphen. -/
def collapse_hyphens : List Char → List Char
  | [] => []
  | [c] => [c]
  | c :: d :: rest =>
      if c = '-' ∧ d = '-' then collapse_hyphens (d :: rest)
      else c :: collapse_hyphens (d :: rest)

/-- Python `name.strip('-')`. -/
def strip_hyphens (l : List Char) : List Char :=
  ((l.dropWhile (fun c => c == '-')).reverse.dropWhile (fun c => c == '-')).reverse

/-- The character pipeline of `MealieClient._generate_slug`
(client.py lines 432-446). -/
def _generate_slug (name : String) : String :=
  String.mk (strip_hyphens (collapse_hyphens
    ((name.data.map (fun c => fold_polish (py_lower_char c))).map hyphenate)))

theorem mem_collapse_hyphens :
    ∀ l : List Char, ∀ c ∈ collapse_hyphens l, c ∈ l := by
  intro l
  induction l with
  | nil => simp [collapse_hyphens]
  | cons a t ih =>
      cases t with
      | nil => simp [collapse_hyphens]
      | cons b r =>
          intro c hc
          by_cases hab : a = '-' ∧ b = '-'
          · rw [collapse_hyphens, if_pos hab] at hc
            exact List.mem_cons_of_mem a (ih c hc)
          · rw [collapse_hyphens, if_neg hab] at hc
            rcases List.mem_cons.mp hc with h1 | h1
            · exact h1 ▸ List.mem_cons_self a (b :: r)
            · exact List.mem_cons_of_mem a (ih c h1)

theorem collapse_hyphens_cons (a : Char) (l : List Char) :
    ∃ t, collapse_hyphens (a :: l) = a :: t := by
  induction l generalizing a with
  | nil => exact ⟨[], rfl⟩
  | cons b r ih =>
      by_cases hab : a = '-' ∧ b = '-'
      · obtain ⟨t, ht⟩ := ih b
        refine ⟨t, ?_⟩
        rw [collapse_hyphens, if_pos hab, ht, hab.1, hab.2]
      · exact ⟨collapse_hyphens (b :: r), by rw [collapse_hyphens, if_neg hab]⟩

theorem chain'_collapse_hyphens (l : List Char) :
    List.Chain' (fun a b => ¬(a = '-' ∧ b = '-')) (collapse_hyphens l) := by
  induction l with
  | nil => simp [collapse_hyphens]
  | cons a t ih =>
      cases t with
      | nil => simp [collapse_hyphens]
      | cons b r =>
          by_cases hab : a = '-' ∧ b = '-'
          · rw [collapse_hyphens, if_pos hab]
            exact ih
          · rw [collapse_hyphens, if_neg hab]
            obtain ⟨t2, ht2⟩ := collapse_hyphens_cons b r
            rw [ht2]
            rw [ht2] at ih
            exact List.chain'_cons.mpr ⟨hab, ih⟩

theorem filter_collapse_hyphens (p : Char → Bool) (hp : p '-' = false) :
    ∀ l : List Char, (collapse_hyphens l).filter p = l.filter p := by
  intro l
  induction l with
  | nil => simp [collapse_hyphens]
  | cons a t ih =>
      cases t with
      | nil => simp [collapse_hyphens]
      | cons b r =>
          by_cases hab : a = '-' ∧ b = '-'
          · rw [collapse_hyphens, if_pos hab, ih, hab.1]
            conv_rhs => rw [List.filter_cons]
            rw [hp]
            simp
          · rw [collapse_hyphens, if_neg hab, List.filter_cons, List.filter_cons, ih]

theorem filter_dropWhile_hyphens (p : Char → Bool) (hp : p '-' = false)
    (l : List Char) :
    (l.dropWhile (fun c => c == '-')).filter p = l.filter p := by
  induction l with
  | nil => simp
  | cons a t ih =>
      by_cases ha : a = '-'
      · subst ha
        rw [List.dropWhile_cons_of_pos (by simp), ih, List.filter_cons, hp]
        simp
      · rw [List.dropWhile_cons_of_neg (by simpa using ha)]

theorem filter_strip_hyphens (p : Char → Bool) (hp : p '-' = false)
    (l : List Char) :
    (strip_hyphens l).filter p = l.filter p := by
  unfold strip_hyphens
  rw [List.filter_reverse, filter_dropWhile_hyphens p hp, List.filter_reverse,
    List.reverse_reverse, filter_dropWhile_hyphens p hp]

theorem head?_dropWhile_false (p : Char → Bool) (l : List Char) (c : Char)
    (h : (l.dropWhile p).head? = some c) : p c = false := by
  have hh := List.head?_dropWhile_not p l
  rw [h] at hh
  exact hh

theorem getLast?_dropWhile_ne_nil (p : Char → Bool) (l : List Char)
    (h : l.dropWhile p ≠ []) : (l.dropWhile p).getLast? = l.getLast? := by
  conv_rhs => rw [← List.takeWhile_append_dropWhile p l]
  rw [List.getLast?_append]
  obtain ⟨x, hx⟩ := Option.isSome_iff_exists.mp
    (List.getLast?_isSome.mpr h)
  rw [hx, Option.or_some]

theorem head?_strip_hyphens (l : List Char) (c : Char)
    (h : (strip_hyphens l).head? = some c) : (c == '-') = false := by
  unfold strip_hyphens at h
  rw [List.head?_reverse] at h
  set A := l.dropWhile (fun c => c == '-') with hA
  by_cases hB : A.reverse.dropWhile (fun c => c == '-') = []
  · rw [hB] at h
    simp at h
  · rw [getLast?_dropWhile_ne_nil _ _ hB, List.getLast?_reverse] at h
    exact head?_dropWhile_false _ l c h

theorem getLast?_strip_hyphens (l : List Char) (c : Char)
    (h : (strip_hyphens l).getLast? = some c) : (c == '-') = false := by
  unfold strip_hyphens at h
  rw [List.getLast?_reverse] at h
  exact head?_dropWhile_false _ _ c h

theorem mem_strip_hyphens (l : List Char) (c : Char)
    (h : c ∈ strip_hyphens l) : c ∈ l := by
  unfold strip_hyphens at h
  rw [List.mem_reverse] at h
  have h2 := (List.dropWhile_sublist _).mem h
  rw [List.mem_reverse] at h2
  exact (List.dropWhile_sublist _).mem h2

theorem chain'_strip_hyphens (l : List Char)
    (h : List.Chain' (fun a b => ¬(a = '-' ∧ b = '-')) l) :
    List.Chain' (fun a b => ¬(a = '-' ∧ b = '-')) (strip_hyphens l) := by
  unfold strip_hyphens
  have h1 : List.Chain' (fun a b => ¬(a = '-' ∧ b = '-'))
      (l.dropWhile (fun c => c == '-')) :=
    h.suffix (List.dropWhile_suffix _)
  have h2 : List.Chain' (fun a b => ¬(a = '-' ∧ b = '-'))
      (l.dropWhile (fun c => c == '-')).reverse := by
    rw [List.chain'_reverse]
    refine h1.imp ?_
    intro a b hab h3
    exact hab ⟨h3.2, h3.1⟩
  have h3 := h2.suffix (List.dropWhile_suffix (fun c => c == '-'))
  rw [List.chain'_reverse]
  refine h3.imp ?_
  intro a b hab h4
  exact hab ⟨h4.2, h4.1⟩

/-- Claim C9 (amended): the generated tag slug is the name lower-cased with
the NINE POLISH diacritic letters (ą ć ę ł ń ó ś ź ż) folded to their base
letters — any other diacritic is not folded but treated as a non-alphanumeric
character — after which every run of non-`[a-z0-9]` characters is collapsed
to a single hyphen and edge hyphens are removed: every slug character is in
`[a-z0-9]` or a hyphen, no two hyphens are adjacent, the slug neither starts
nor ends with a hyphen, and deleting the hyphens leaves exactly the
`[a-z0-9]` characters of the folded lower-cased name, in order. -/
theorem generate_slug_shape (name : String) :
    (∀ c ∈ (_generate_slug name).data, is_slug_alnum c = true ∨ c = '-') ∧
    List.Chain' (fun a b => ¬(a = '-' ∧ b = '-')) (_generate_slug name).data ∧
    (∀ c, (_generate_slug name).data.head? = some c → c ≠ '-') ∧
    (∀ c, (_generate_slug name).data.getLast? = some c → c ≠ '-') ∧
    (_generate_slug name).data.filter (fun c => !(c == '-')) =
      (name.data.map (fun c => fold_polish (py_lower_char c))).filter
        is_slug_alnum := by
  refine ⟨?_, ?_, ?_, ?_, ?_⟩
  · intro c hc
    have h1 := mem_strip_hyphens _ c hc
    have h2 := mem_collapse_hyphens _ c h1
    obtain ⟨d, _, hd⟩ := List.mem_map.mp h2
    rw [← hd]
    unfold hyphenate
    by_cases hda : is_slug_alnum d = true
    · rw [if_pos hda]
      exact Or.inl hda
    · rw [if_neg hda]
      exact Or.inr rfl
  · exact chain'_strip_hyphens _ (chain'_collapse_hyphens _)
  · intro c hc
    have := head?_strip_hyphens _ c hc
    simpa using this
  · intro c hc
    have := getLast?_strip_hyphens _ c hc
    simpa using this
  · show (strip_hyphens (collapse_hyphens _)).filter _ = _
    rw [filter_strip_hyphens _ (by decide),
      filter_collapse_hyphens _ (by decide)]
    generalize name.data.map (fun c => fold_polish (py_lower_char c)) = l
    induction l with
    | nil => simp
    | cons a t ih =>
        rw [List.map_cons, List.filter_cons, List.filter_cons]
        by_cases ha : is_slug_alnum a = true
        · have h1 : hyphenate a = a := by rw [hyphenate, if_pos ha]
          have h2 : (!(a == '-')) = true := by
            by_cases hd : a = '-'
            · rw [hd] at ha
              exact absurd ha (by decide)
            · simpa using hd
          simp [h1, h2, ha, ih]
        · have h1 : hyphenate a = '-' := by rw [hyphenate, if_neg ha]
          simp [h1, ha, ih]

/-- Counterexample for C9 as stated: the claim says every diacritic is folded
to its base Latin letter, which for the tag name `café` would give `cafe`.
The code folds only the nine Polish letters; `é` falls into the
non-alphanumeric class, is replaced by a hyphen and then stripped, so the
generated slug is `caf`. -/
theorem generate_slug_diacritics_counterexample :
    _generate_slug "café" = "caf" ∧ ("caf" : String) ≠ "cafe" := by
  exact ⟨rfl, by decide⟩

end MealieImport
